import Mathlib

/-
Shallow embedding of the core of the TCG card-scanner repository:
grading-response normalization (XimilarApiService.processGradingResponse,
interpretGrade), the recognition pipeline (CameraService.recognizeCard and
its helpers), collection state management (CollectionModel, the Redux
collection slice reducers, CollectionViewModel.getTotalValue), and the
persistence bridge (StorageService.loadCollection / loadSettings).

Modelling conventions:
- JavaScript numbers are modelled as Rat (no NaN / floating point rounding
  is relied on by any property below); integer-valued counters (quantities,
  years, timestamps) as Int / Nat.
- Optional / possibly-absent fields are Option; `a || b` on possibly-absent
  values is modelled by the js*Or helpers below, which mirror JavaScript
  truthiness on the types that actually occur (0, "" and absent are falsy).
- Fallible code returns Except; async success is a plain value (a resolved
  promise carrying v is just v, a rejected one is Except.error).
- External collaborators (network, clock) enter as explicit parameters.
-/

namespace TCG

/-- JavaScript `a || b` where `a : Option Rat` (absent, 0 ⇒ falsy). -/
def jsNumOr (a : Option Rat) (d : Rat) : Rat :=
  match a with
  | none => d
  | some q => if q = 0 then d else q

/-- JavaScript `a || b` where `a : Option String` (absent, "" ⇒ falsy). -/
def jsStrOr (a : Option String) (d : String) : String :=
  match a with
  | none => d
  | some s => if s = "" then d else s

/-- JavaScript `a || b` where both sides may be absent strings. -/
def jsStrOrOpt (a b : Option String) : Option String :=
  match a with
  | none => b
  | some s => if s = "" then b else some s

/-- Price as it occurs at runtime in persisted collections: the TypeScript
type says `number`, but legacy data may hold strings such as "$25.50"
(CollectionViewModel.getTotalValue dispatches on `typeof`). -/
inductive PriceVal where
  | num (q : Rat)
  | str (s : String)
deriving Repr, DecidableEq

/-- apiData block of a Card (src/src/types/index.ts). -/
structure ApiData where
  ximilarId : Option String
  confidence : Option Rat
  grade : Option Rat
  gradingService : Option String
deriving Repr, DecidableEq

/-- Card (src/src/types/index.ts). -/
structure Card where
  id : String
  name : String
  set : String
  rarity : String
  condition : String
  price : PriceVal
  imageUrl : String
  description : String
  artist : String
  year : Int
  type : String
  types : Option (List String)
  hp : Option String
  apiData : Option ApiData
deriving Repr, DecidableEq

/-- CollectionCard extends Card with quantity and dateAdded
(src/src/types/index.ts). -/
structure CollectionCard extends Card where
  quantity : Int
  dateAdded : String
deriving Repr, DecidableEq

/-- UserSettings (src/src/types/index.ts). -/
structure UserSettings where
  darkMode : Bool
  notifications : Bool
  offlineMode : Bool
deriving Repr, DecidableEq

/-- The entry built by CollectionModel.addCard's push branch:
`{ ...card, quantity: 1, dateAdded: new Date().toISOString() }`. -/
def mkEntry (card : Card) (now : String) : CollectionCard :=
  { toCard := card, quantity := 1, dateAdded := now }

namespace CollectionModel

/-- CollectionModel.addCard (src/src/models/Settings.ts, lines 152-163):
find the first entry whose id equals card.id and increment its quantity by
1; if none exists, push a fresh entry with quantity 1 and dateAdded = now.
The in-place mutation is modelled by returning the new list. -/
def addCard (cards : List CollectionCard) (card : Card) (now : String) :
    List CollectionCard :=
  match cards with
  | [] => [mkEntry card now]
  | c :: rest =>
      if c.id = card.id then { c with quantity := c.quantity + 1 } :: rest
      else c :: addCard rest card now

/-- CollectionModel.removeCard (src/src/models/Settings.ts, lines 165-167)
and the collection slice's removeCard reducer
(src/src/store/slices/scannerSlice.ts, lines 84-86): both are
`cards.filter(card => card.id !== cardId)`. -/
def removeCard (cards : List CollectionCard) (cardId : String) :
    List CollectionCard :=
  cards.filter (fun card => card.id ≠ cardId)

/-- CollectionModel.getCardCount (src/src/models/Settings.ts):
`cards.reduce((total, card) => total + card.quantity, 0)`. -/
def getCardCount (cards : List CollectionCard) : Int :=
  cards.foldl (fun total card => total + card.quantity) 0

/-- N successive addCard calls with the same card; the k-th call (0-based)
sees the clock reading nowF k. -/
def addCardN (n : Nat) (cards : List CollectionCard) (card : Card)
    (nowF : Nat → String) : List CollectionCard :=
  match n with
  | 0 => cards
  | k + 1 => addCard (addCardN k cards card nowF) card (nowF k)

end CollectionModel

/-- addCard reducer of the collection slice
(src/src/store/slices/scannerSlice.ts, lines 76-83): find the first entry
with the payload's id and increment its quantity by the payload's quantity;
otherwise push the payload itself. -/
def sliceAddCard (cards : List CollectionCard) (payload : CollectionCard) :
    List CollectionCard :=
  match cards with
  | [] => [payload]
  | c :: rest =>
      if c.id = payload.id then
        { c with quantity := c.quantity + payload.quantity } :: rest
      else c :: sliceAddCard rest payload

/-- Individual tag with confidence score (src/src/types/index.ts). -/
structure XimilarTag where
  prob : Rat
  name : String
  id : String
deriving Repr, DecidableEq

/-- Card categorization tags (src/src/types/index.ts); every category is
optional at runtime. -/
structure XimilarTags where
  Category : Option (List XimilarTag)
  Damaged : Option (List XimilarTag)
  Autograph : Option (List XimilarTag)
  Side : Option (List XimilarTag)
  Subcategory : Option (List XimilarTag)
deriving Repr, DecidableEq

/-- Best-match identification block (src/src/types/index.ts,
XimilarCardMatch); only the fields processGradingResponse reads. -/
structure XimilarCardMatch where
  year : Option Int
  full_name : Option String
  name : Option String
  set : Option String
  rarity : Option String
  card_number : Option String
deriving Repr, DecidableEq

/-- Identification data (src/src/types/index.ts). -/
structure XimilarIdentification where
  best_match : Option XimilarCardMatch
deriving Repr, DecidableEq

/-- Detected object (src/src/types/index.ts, XimilarObject); only the
fields processGradingResponse reads. -/
structure XimilarObject where
  name : String
  prob : Rat
  _identification : Option XimilarIdentification
deriving Repr, DecidableEq

/-- Overall card analysis block (src/src/types/index.ts,
XimilarCardAnalysis); processGradingResponse only reads `_tags`, guarded
by `?._tags || {}`, so the block may lack it at runtime. -/
structure XimilarCardAnalysis where
  _tags : Option XimilarTags
deriving Repr, DecidableEq

/-- Final grading scores (src/src/types/index.ts, XimilarGrades). The
TypeScript type declares all five numbers required, but the code reads
each with `|| 0`, so each is optional at runtime. -/
structure XimilarGrades where
  corners : Option Rat
  edges : Option Rat
  surface : Option Rat
  centering : Option Rat
  final : Option Rat
deriving Repr, DecidableEq

/-- Raw API record (src/src/types/index.ts, XimilarRecord); the fields
processGradingResponse reads, each optional at runtime (the code guards
every access with `?.` or a falsiness check). -/
structure XimilarRecord where
  _objects : Option (List XimilarObject)
  card : Option (List XimilarCardAnalysis)
  grades : Option XimilarGrades
  _full_url_card : Option String
  _exact_url_card : Option String
deriving Repr, DecidableEq

/-- Normalized grading result (src/src/types/index.ts,
XimilarGradingResult); field `isfront` spelled as in the source. -/
structure XimilarGradingResult where
  finalGrade : Rat
  cornerGrade : Rat
  edgeGrade : Rat
  surfaceGrade : Rat
  centeringGrade : Rat
  confidence : Rat
  category : String
  subcategory : Option String
  isDamaged : Bool
  hasAutograph : Bool
  isfront : Bool
  imageUrl : Option String
  cardName : Option String
  setName : Option String
  rarity : Option String
  cardNumber : Option String
  year : Option Int
deriving Repr, DecidableEq

/-- Tags block with every category absent, the `|| {}` default. -/
def emptyTags : XimilarTags :=
  { Category := none, Damaged := none, Autograph := none, Side := none,
    Subcategory := none }

/-- Name of the first tag of a category, `tags.X?.[0]?.name`. -/
def headTagName (tags : Option (List XimilarTag)) : Option String :=
  (tags.bind List.head?).map XimilarTag.name

namespace XimilarApiService

/-- XimilarApiService.processGradingResponse
(src/src/services/api/XimilarApiService.ts, lines 314-411). Throwing is
modelled as Except.error with the thrown message. -/
def processGradingResponse (record : XimilarRecord) :
    Except String XimilarGradingResult :=
  let cardData := record.card.bind List.head?
  let tags := (cardData.bind XimilarCardAnalysis._tags).getD emptyTags
  let cardObject :=
    (record._objects.getD []).find? (fun obj => obj.name == "Card")
  let identification := cardObject.bind XimilarObject._identification
  match record.grades with
  | none => .error "No grading data found in the response"
  | some grades =>
    let bestMatch := identification.bind XimilarIdentification.best_match
    .ok
      { finalGrade := jsNumOr grades.final 0
      , cornerGrade := jsNumOr grades.corners 0
      , edgeGrade := jsNumOr grades.edges 0
      , surfaceGrade := jsNumOr grades.surface 0
      , centeringGrade := jsNumOr grades.centering 0
      , confidence := jsNumOr (cardObject.map XimilarObject.prob) 0
      , category := jsStrOr (headTagName tags.Category) "Trading Card"
      , subcategory := headTagName tags.Subcategory
      , isDamaged := headTagName tags.Damaged != some "OK"
      , hasAutograph := headTagName tags.Autograph == some "Yes"
      , isfront := headTagName tags.Side == some "Front"
      , imageUrl := jsStrOrOpt record._full_url_card record._exact_url_card
      , cardName :=
          bestMatch.bind (fun bm => jsStrOrOpt bm.name bm.full_name)
      , setName := bestMatch.bind XimilarCardMatch.set
      , rarity := bestMatch.bind XimilarCardMatch.rarity
      , cardNumber := bestMatch.bind XimilarCardMatch.card_number
      , year := bestMatch.bind XimilarCardMatch.year }

/-- XimilarApiService.interpretGrade
(src/src/services/api/XimilarApiService.ts, lines 422-450): clamps to
[0,10] and maps through the finer, half-point banding table. -/
def interpretGrade (grade : Option Rat) : String :=
  match grade with
  | none => "Not Graded"
  | some g =>
    let n := max 0 (min 10 g)
    if n ≥ 10 then "Gem Mint"
    else if n ≥ 9.5 then "Gem Mint"
    else if n ≥ 9 then "Mint"
    else if n ≥ 8.5 then "Near Mint+"
    else if n ≥ 8 then "Near Mint/Mint"
    else if n ≥ 7.5 then "Near Mint"
    else if n ≥ 7 then "Excellent"
    else if n ≥ 6.5 then "Very Good+"
    else if n ≥ 6 then "Very Good"
    else if n ≥ 5.5 then "Good+"
    else if n ≥ 5 then "Good"
    else if n ≥ 4 then "Fair"
    else if n ≥ 3 then "Poor"
    else if n ≥ 2 then "Damaged"
    else if n ≥ 1 then "Authentic (Damaged)"
    else "Damaged"

end XimilarApiService

namespace CardModel

/-- CardModel.mapGradeToCondition (src/src/models/Settings.ts, lines
129-142). The JavaScript guard `!grade` is true for an absent argument and
for grade 0. -/
def mapGradeToCondition (grade : Option Rat) : String :=
  match grade with
  | none => "Unknown"
  | some g =>
    if g = 0 then "Unknown"
    else if g ≥ 10 then "Gem Mint"
    else if g ≥ 9 then "Mint"
    else if g ≥ 8 then "Near Mint/Mint"
    else if g ≥ 7 then "Near Mint"
    else if g ≥ 6 then "Excellent"
    else if g ≥ 5 then "Very Good"
    else if g ≥ 4 then "Good"
    else if g ≥ 3 then "Fair"
    else if g ≥ 2 then "Poor"
    else "Damaged"

/-- CardModel.createMockCard (src/src/models/Settings.ts, lines 81-97);
`Date.now()` enters as the parameter now. -/
def createMockCard (now : Nat) : Card :=
  { id := "mock_" ++ toString now
  , name := "Pikachu"
  , set := "Base Set"
  , rarity := "Common"
  , condition := "Near Mint"
  , price := .num 5
  , imageUrl := "https://images.pokemontcg.io/base1/25.png"
  , description := "A mouse Pokémon with electricity-storing cheek pouches."
  , artist := "Atsuko Nishida"
  , year := 1996
  , type := "Pokémon"
  , types := some ["Electric"]
  , hp := some "60"
  , apiData := none }

end CardModel

namespace CameraService

/-- CameraService.mapConditionFromGrade (src/unnamed/part_001, lines
387-420); textually the same coarse banding table as
CardModel.mapGradeToCondition. -/
def mapConditionFromGrade (grade : Option Rat) : String :=
  match grade with
  | none => "Unknown"
  | some g =>
    if g = 0 then "Unknown"
    else if g ≥ 10 then "Gem Mint"
    else if g ≥ 9 then "Mint"
    else if g ≥ 8 then "Near Mint/Mint"
    else if g ≥ 7 then "Near Mint"
    else if g ≥ 6 then "Excellent"
    else if g ≥ 5 then "Very Good"
    else if g ≥ 4 then "Good"
    else if g ≥ 3 then "Fair"
    else if g ≥ 2 then "Poor"
    else "Damaged"

/-- CameraService.mapRarityFromGrade (src/unnamed/part_001, lines
335-346). -/
def mapRarityFromGrade (grade : Rat) : String :=
  if grade ≥ 9.5 then "Ultra Rare"
  else if grade ≥ 8.5 then "Rare"
  else if grade ≥ 7 then "Uncommon"
  else "Common"

/-- CameraService.generateCardNameFromGrading (src/unnamed/part_001,
lines 288-329). The `if (subcategory)` truthiness check treats an empty
string as absent. Numeric interpolation in the dead `Graded Card` fallback
is rendered with Lean's Rat toString. -/
def generateCardNameFromGrading (g : XimilarGradingResult) : String :=
  let nameParts : List String :=
    (if g.finalGrade ≥ 9 then ["Premium"]
     else if g.finalGrade ≥ 8 then ["Mint"]
     else if g.finalGrade ≥ 7 then ["Excellent"]
     else if g.finalGrade ≥ 5 then ["Good"]
     else if g.isDamaged then ["Damaged"]
     else [])
    ++ [match g.subcategory with
        | some s => if s = "" then g.category else s
        | none => g.category]
    ++ (if g.hasAutograph then ["(Autographed)"] else [])
  if nameParts = [] then "Graded Card (" ++ toString g.finalGrade ++ "/10)"
  else String.intercalate " " nameParts

/-- Wrapper over the external call chain of XimilarApiService.gradeCard
(src/src/services/api/XimilarApiService.ts, lines 92-211): the network,
upload and validation plumbing is an external collaborator whose outcome
is the parameter net (error = any network / auth / validation failure,
ok = the first record of a response that passed the non-empty check); a
throw escaping processGradingResponse is caught and rewrapped by the
catch block's final `Card grading failed:` branch. -/
def gradeCard (net : Except String XimilarRecord) :
    Except String XimilarGradingResult :=
  match net with
  | .error e => .error e
  | .ok record =>
    match XimilarApiService.processGradingResponse record with
    | .ok g => .ok g
    | .error e => .error ("Card grading failed: " ++ e)

/-- Result shape of CameraService.recognizeCard. -/
structure RecognizeResult where
  card : Card
  confidence : Rat
  gradingResult : Option XimilarGradingResult
deriving Repr, DecidableEq

/-- CameraService.recognizeCard (src/unnamed/part_001, lines 229-281).
`Date.now()` and `new Date().getFullYear()` enter as the parameters now
and currentYear; the grading collaborator outcome is net. The catch
branch builds the fallback from CardModel.createMockCard, overriding
imageUrl, name and description, and resolves with confidence 0.1 and a
null gradingResult. Numeric string interpolation in the description is
rendered with Lean's Rat toString. -/
def recognizeCard (imageUri : String) (net : Except String XimilarRecord)
    (now : Nat) (currentYear : Int) : RecognizeResult :=
  match gradeCard net with
  | .ok g =>
      { card :=
        { id := "ximilar_" ++ toString now
        , name := generateCardNameFromGrading g
        , set := jsStrOr (some g.category) "Trading Card Collection"
        , rarity := mapRarityFromGrade g.finalGrade
        , condition := mapConditionFromGrade (some g.finalGrade)
        , price := .num 0
        , imageUrl := imageUri
        , description :=
            "Graded " ++ g.category ++ " card. Final grade: "
              ++ toString g.finalGrade ++ "/10. Surface: "
              ++ toString g.surfaceGrade ++ "/10. "
              ++ (if g.isDamaged then "Shows damage. "
                  else "In good condition. ")
              ++ (if g.hasAutograph then "Has autograph. " else "")
        , artist := "Unknown"
        , year := currentYear
        , type := jsStrOr (jsStrOrOpt g.subcategory (some g.category))
            "Trading Card"
        , types := none
        , hp := none
        , apiData := some
            { ximilarId := none
            , confidence := some g.confidence
            , grade := some g.finalGrade
            , gradingService := some "Ximilar" } }
      , confidence := g.confidence
      , gradingResult := some g }
  | .error _ =>
      { card :=
        { CardModel.createMockCard now with
            imageUrl := imageUri
          , name := "Unrecognized Card"
          , description :=
              "Card could not be identified. Please try again or add details manually." }
      , confidence := 1/10
      , gradingResult := none }

end CameraService

/-- Outcome of one storage read as StorageService observes it:
AsyncStorage.getItem may throw (getFailure) or return null (nullValue);
JSON.parse of a returned string may throw (parseFailure) or produce a
value of the expected shape (parsed). -/
inductive StorageRead (α : Type) where
  | getFailure
  | nullValue
  | parseFailure
  | parsed (v : α)
deriving Repr, DecidableEq

namespace StorageService

/-- StorageService.loadCollection
(src/src/services/storage/StorageService.ts, lines 19-27): a null read
resolves to [], any throw is caught and resolves to []. Totality of this
function is the never-throws guarantee. -/
def loadCollection : StorageRead (List CollectionCard) → List CollectionCard
  | .getFailure => []
  | .nullValue => []
  | .parseFailure => []
  | .parsed v => v

/-- The inline default settings object of StorageService.loadSettings. -/
def defaultSettings : UserSettings :=
  { darkMode := false, notifications := true, offlineMode := false }

/-- StorageService.loadSettings
(src/src/services/storage/StorageService.ts, lines 40-56): a null read
resolves to the defaults, any throw is caught and resolves to the
defaults. -/
def loadSettings : StorageRead UserSettings → UserSettings
  | .getFailure => defaultSettings
  | .nullValue => defaultSettings
  | .parseFailure => defaultSettings
  | .parsed v => v

end StorageService

/-- Decimal digits to a natural number, most significant first. -/
def digitsToNat (ds : List Char) : Nat :=
  ds.foldl (fun a c => a * 10 + (c.toNat - 48)) 0

/-- Model of JavaScript parseFloat on the string shapes that occur here:
skip leading whitespace, optional sign, decimal digits with an optional
fractional part; none models NaN (no number could be parsed). Trailing
garbage is ignored, as parseFloat does. Exponent notation is not
modelled. -/
def parseFloatOpt (s : String) : Option Rat :=
  let cs := s.data.dropWhile (fun c => c == ' ' || c == '\t' || c == '\n')
  let signed : Rat × List Char :=
    match cs with
    | '-' :: r => (-1, r)
    | '+' :: r => (1, r)
    | _ => (1, cs)
  let ds := signed.2.takeWhile Char.isDigit
  let rest := signed.2.dropWhile Char.isDigit
  let fds :=
    match rest with
    | '.' :: r => r.takeWhile Char.isDigit
    | _ => []
  if ds.isEmpty && fds.isEmpty then none
  else
    some (signed.1 *
      ((digitsToNat ds : Rat) + (digitsToNat fds : Rat) / (10 : Rat) ^ fds.length))

/-- JavaScript `s.replace(t, '')` with a single-character pattern:
removes the first occurrence of t. -/
def removeFirstChar : List Char → Char → List Char
  | [], _ => []
  | c :: r, t => if c = t then r else c :: removeFirstChar r t

/-- String wrapper for removeFirstChar. -/
def jsReplaceFirst (s : String) (t : Char) : String :=
  ⟨removeFirstChar s.data t⟩

namespace CollectionViewModel

/-- The per-entry price computation of CollectionViewModel.getTotalValue
(src/unnamed/part_003, lines 137-150): a string price is
`parseFloat(price.replace('$','')) || 0`, a number is used as-is. -/
def parsePriceVal (p : PriceVal) : Rat :=
  match p with
  | .str s => jsNumOr (parseFloatOpt (jsReplaceFirst s '$')) 0
  | .num q => q

/-- CollectionViewModel.getTotalValue (src/unnamed/part_003, lines
137-150), the numeric total before the final `$...toFixed(2)` string
formatting: `cards.reduce((sum, card) => sum + price * card.quantity, 0)`. -/
def getTotalValue (cards : List CollectionCard) : Rat :=
  cards.foldl
    (fun sum card => sum + parsePriceVal card.price * (card.quantity : Rat)) 0

end CollectionViewModel

/-- Modelled from the spec's words, for comparison only (claim C9): the
banding table exactly as the claim states it, evaluated highest-first with
ties broken by ">=": grade≥9→"Mint", ≥8→"Near Mint/Mint", ≥7→"Near Mint",
≥6→"Excellent", ≥5→"Very Good", ≥4→"Good", ≥3→"Fair", ≥2→"Poor",
"Damaged" on [1,2) and "Authentic (Damaged)" below 1. -/
def specBandClaim (g : Rat) : String :=
  if g ≥ 9 then "Mint"
  else if g ≥ 8 then "Near Mint/Mint"
  else if g ≥ 7 then "Near Mint"
  else if g ≥ 6 then "Excellent"
  else if g ≥ 5 then "Very Good"
  else if g ≥ 4 then "Good"
  else if g ≥ 3 then "Fair"
  else if g ≥ 2 then "Poor"
  else if g ≥ 1 then "Damaged"
  else "Authentic (Damaged)"

/-- First-card tags block of a record, `record.card?.[0]?._tags || {}`. -/
def recordTags (record : XimilarRecord) : XimilarTags :=
  ((record.card.bind List.head?).bind XimilarCardAnalysis._tags).getD emptyTags

/-- Damaged tag value of a record, `record.card?.[0]?._tags?.Damaged?.[0]?.name`. -/
def damagedTagName (record : XimilarRecord) : Option String :=
  headTagName (recordTags record).Damaged

/-- Autograph tag value of a record. -/
def autographTagName (record : XimilarRecord) : Option String :=
  headTagName (recordTags record).Autograph

/-- Side tag value of a record. -/
def sideTagName (record : XimilarRecord) : Option String :=
  headTagName (recordTags record).Side

/-- Primary detected object, `record._objects?.find(obj => obj.name === 'Card')`. -/
def primaryObject (record : XimilarRecord) : Option XimilarObject :=
  (record._objects.getD []).find? (fun obj => obj.name == "Card")

deriving instance DecidableEq for Except

/-- A plain sample card used in concrete instantiations. -/
def sampleCard (i : String) : Card :=
  { id := i
  , name := "Pikachu"
  , set := "Base Set"
  , rarity := "Common"
  , condition := "Near Mint"
  , price := .num 5
  , imageUrl := "https://images.pokemontcg.io/base1/25.png"
  , description := "Electric mouse"
  , artist := "Atsuko Nishida"
  , year := 1996
  , type := "Pokémon"
  , types := none
  , hp := none
  , apiData := none }

/-- A sample collection entry with a chosen price and quantity. -/
def sampleEntry (i : String) (q : Int) (p : PriceVal) (d : String) :
    CollectionCard :=
  { toCard := { sampleCard i with price := p }, quantity := q, dateAdded := d }

/-- A raw record with no grading payload at all. -/
def noGradesRecord : XimilarRecord :=
  { _objects := none
  , card := none
  , grades := none
  , _full_url_card := none
  , _exact_url_card := none }

/-- A raw record whose grading payload is present but every optional field
inside is missing. -/
def bareGradesRecord : XimilarRecord :=
  { _objects := none
  , card := none
  , grades := some
      { corners := none, edges := none, surface := none, centering := none,
        final := none }
  , _full_url_card := none
  , _exact_url_card := none }

/-- A tag carrying a given value. -/
def tagNamed (n : String) : XimilarTag := { prob := 0.9, name := n, id := "t" }

/-- Tags of the §8 scenario: Damaged absent, Autograph "No", Side "Back". -/
def scenarioTags : XimilarTags :=
  { Category := none
  , Damaged := none
  , Autograph := some [tagNamed "No"]
  , Side := some [tagNamed "Back"]
  , Subcategory := none }

/-- The §8 scenario record: grades.final = 8.5, object confidence 0.95,
Damaged tag absent, Autograph tag "No", Side tag "Back". -/
def scenarioRecord : XimilarRecord :=
  { _objects := some [{ name := "Card", prob := 0.95, _identification := none }]
  , card := some [{ _tags := some scenarioTags }]
  , grades := some
      { corners := none, edges := none, surface := none, centering := none,
        final := some 8.5 }
  , _full_url_card := none
  , _exact_url_card := none }

/-- What normalization produces on scenarioRecord. -/
def scenarioResult : XimilarGradingResult :=
  { finalGrade := 8.5
  , cornerGrade := 0
  , edgeGrade := 0
  , surfaceGrade := 0
  , centeringGrade := 0
  , confidence := 0.95
  , category := "Trading Card"
  , subcategory := none
  , isDamaged := true
  , hasAutograph := false
  , isfront := false
  , imageUrl := none
  , cardName := none
  , setName := none
  , rarity := none
  , cardNumber := none
  , year := none }

/-- A record whose final grade 42 is far out of the documented [0,10]
range, to exercise the no-clamping rule. -/
def outOfRangeRecord : XimilarRecord :=
  { _objects := some [{ name := "Card", prob := 0.95, _identification := none }]
  , card := none
  , grades := some
      { corners := none, edges := none, surface := none, centering := none,
        final := some 42 }
  , _full_url_card := none
  , _exact_url_card := none }

/-- What normalization produces on outOfRangeRecord. -/
def outOfRangeResult : XimilarGradingResult :=
  { finalGrade := 42
  , cornerGrade := 0
  , edgeGrade := 0
  , surfaceGrade := 0
  , centeringGrade := 0
  , confidence := 0.95
  , category := "Trading Card"
  , subcategory := none
  , isDamaged := true
  , hasAutograph := false
  , isfront := false
  , imageUrl := none
  , cardName := none
  , setName := none
  , rarity := none
  , cardNumber := none
  , year := none }

set_option maxHeartbeats 4000000 in
/-- C9 (amended): the coarse banding table shared by
CameraService.mapConditionFromGrade and CardModel.mapGradeToCondition is
the monotonic highest-first ">="-tie-broken table grade≥10→"Gem Mint",
≥9→"Mint", ≥8→"Near Mint/Mint", ≥7→"Near Mint", ≥6→"Excellent",
≥5→"Very Good", ≥4→"Good", ≥3→"Fair", ≥2→"Poor", "Damaged" for every
nonzero grade below 2, "Unknown" for a zero or absent grade; the finer
interpretGrade table is the one distinguishing below 2, with
"Authentic (Damaged)" on [1,2) and "Damaged" below 1. -/
theorem banding_tables (g : Rat) :
    CameraService.mapConditionFromGrade (some g) =
      CardModel.mapGradeToCondition (some g)
  ∧ (10 ≤ g → CameraService.mapConditionFromGrade (some g) = "Gem Mint")
  ∧ (9 ≤ g → g < 10 → CameraService.mapConditionFromGrade (some g) = "Mint")
  ∧ (8 ≤ g → g < 9 →
      CameraService.mapConditionFromGrade (some g) = "Near Mint/Mint")
  ∧ (7 ≤ g → g < 8 → CameraService.mapConditionFromGrade (some g) = "Near Mint")
  ∧ (6 ≤ g → g < 7 → CameraService.mapConditionFromGrade (some g) = "Excellent")
  ∧ (5 ≤ g → g < 6 → CameraService.mapConditionFromGrade (some g) = "Very Good")
  ∧ (4 ≤ g → g < 5 → CameraService.mapConditionFromGrade (some g) = "Good")
  ∧ (3 ≤ g → g < 4 → CameraService.mapConditionFromGrade (some g) = "Fair")
  ∧ (2 ≤ g → g < 3 → CameraService.mapConditionFromGrade (some g) = "Poor")
  ∧ (g ≠ 0 → g < 2 → CameraService.mapConditionFromGrade (some g) = "Damaged")
  ∧ CameraService.mapConditionFromGrade none = "Unknown"
  ∧ CameraService.mapConditionFromGrade (some 0) = "Unknown"
  ∧ (1 ≤ g → g < 2 →
      XimilarApiService.interpretGrade (some g) = "Authentic (Damaged)")
  ∧ (0 ≤ g → g < 1 →
      XimilarApiService.interpretGrade (some g) = "Damaged") := by
  refine ⟨rfl, ?_, ?_, ?_, ?_, ?_, ?_, ?_, ?_, ?_, ?_, rfl, ?_, ?_, ?_⟩
  · intro h1
    simp only [CameraService.mapConditionFromGrade]
    split_ifs <;> first | rfl | (exfalso; linarith)
  · intro h1 h2
    simp only [CameraService.mapConditionFromGrade]
    split_ifs <;> first | rfl | (exfalso; linarith)
  · intro h1 h2
    simp only [CameraService.mapConditionFromGrade]
    split_ifs <;> first | rfl | (exfalso; linarith)
  · intro h1 h2
    simp only [CameraService.mapConditionFromGrade]
    split_ifs <;> first | rfl | (exfalso; linarith)
  · intro h1 h2
    simp only [CameraService.mapConditionFromGrade]
    split_ifs <;> first | rfl | (exfalso; linarith)
  · intro h1 h2
    simp only [CameraService.mapConditionFromGrade]
    split_ifs <;> first | rfl | (exfalso; linarith)
  · intro h1 h2
    simp only [CameraService.mapConditionFromGrade]
    split_ifs <;> first | rfl | (exfalso; linarith)
  · intro h1 h2
    simp only [CameraService.mapConditionFromGrade]
    split_ifs <;> first | rfl | (exfalso; linarith)
  · intro h1 h2
    simp only [CameraService.mapConditionFromGrade]
    split_ifs <;> first | rfl | (exfalso; linarith)
  · intro h1 h2
    simp only [CameraService.mapConditionFromGrade]
    split_ifs <;> first | rfl | (exfalso; first | exact h1 ‹g = 0› | linarith)
  · simp [CameraService.mapConditionFromGrade]
  · intro h1 h2
    have hmax : max 0 (min 10 g) = g := by
      rw [min_eq_right (by linarith)]
      exact max_eq_right (by linarith)
    show (let n := max 0 (min 10 g)
      if n ≥ 10 then "Gem Mint"
      else if n ≥ 9.5 then "Gem Mint"
      else if n ≥ 9 then "Mint"
      else if n ≥ 8.5 then "Near Mint+"
      else if n ≥ 8 then "Near Mint/Mint"
      else if n ≥ 7.5 then "Near Mint"
      else if n ≥ 7 then "Excellent"
      else if n ≥ 6.5 then "Very Good+"
      else if n ≥ 6 then "Very Good"
      else if n ≥ 5.5 then "Good+"
      else if n ≥ 5 then "Good"
      else if n ≥ 4 then "Fair"
      else if n ≥ 3 then "Poor"
      else if n ≥ 2 then "Damaged"
      else if n ≥ 1 then "Authentic (Damaged)"
      else "Damaged") = "Authentic (Damaged)"
    simp only [hmax]
    rw [if_neg (by linarith : ¬ g ≥ 10), if_neg (by linarith : ¬ g ≥ 9.5),
      if_neg (by linarith : ¬ g ≥ 9), if_neg (by linarith : ¬ g ≥ 8.5),
      if_neg (by linarith : ¬ g ≥ 8), if_neg (by linarith : ¬ g ≥ 7.5),
      if_neg (by linarith : ¬ g ≥ 7), if_neg (by linarith : ¬ g ≥ 6.5),
      if_neg (by linarith : ¬ g ≥ 6), if_neg (by linarith : ¬ g ≥ 5.5),
      if_neg (by linarith : ¬ g ≥ 5), if_neg (by linarith : ¬ g ≥ 4),
      if_neg (by linarith : ¬ g ≥ 3), if_neg (by linarith : ¬ g ≥ 2),
      if_pos (by linarith : g ≥ 1)]
  · intro h1 h2
    have hmax : max 0 (min 10 g) = g := by
      rw [min_eq_right (by linarith)]
      exact max_eq_right (by linarith)
    show (let n := max 0 (min 10 g)
      if n ≥ 10 then "Gem Mint"
      else if n ≥ 9.5 then "Gem Mint"
      else if n ≥ 9 then "Mint"
      else if n ≥ 8.5 then "Near Mint+"
      else if n ≥ 8 then "Near Mint/Mint"
      else if n ≥ 7.5 then "Near Mint"
      else if n ≥ 7 then "Excellent"
      else if n ≥ 6.5 then "Very Good+"
      else if n ≥ 6 then "Very Good"
      else if n ≥ 5.5 then "Good+"
      else if n ≥ 5 then "Good"
      else if n ≥ 4 then "Fair"
      else if n ≥ 3 then "Poor"
      else if n ≥ 2 then "Damaged"
      else if n ≥ 1 then "Authentic (Damaged)"
      else "Damaged") = "Damaged"
    simp only [hmax]
    rw [if_neg (by linarith : ¬ g ≥ 10), if_neg (by linarith : ¬ g ≥ 9.5),
      if_neg (by linarith : ¬ g ≥ 9), if_neg (by linarith : ¬ g ≥ 8.5),
      if_neg (by linarith : ¬ g ≥ 8), if_neg (by linarith : ¬ g ≥ 7.5),
      if_neg (by linarith : ¬ g ≥ 7), if_neg (by linarith : ¬ g ≥ 6.5),
      if_neg (by linarith : ¬ g ≥ 6), if_neg (by linarith : ¬ g ≥ 5.5),
      if_neg (by linarith : ¬ g ≥ 5), if_neg (by linarith : ¬ g ≥ 4),
      if_neg (by linarith : ¬ g ≥ 3), if_neg (by linarith : ¬ g ≥ 2),
      if_neg (by linarith : ¬ g ≥ 1)]
section

attribute [local semireducible] Rat.add Rat.mul Rat.inv Rat.sub Rat.ofScientific

lemma foldl_quantity_shift (s : List CollectionCard) (a : Int) :
    s.foldl (fun total card => total + card.quantity) a =
      a + s.foldl (fun total card => total + card.quantity) 0 := by
  induction s generalizing a with
  | nil => simp
  | cons x t ih =>
      simp only [List.foldl_cons]
      rw [ih (a + x.quantity), ih (0 + x.quantity)]
      omega

lemma getCardCount_addCard (s : List CollectionCard) (c : Card) (now : String) :
    CollectionModel.getCardCount (CollectionModel.addCard s c now) =
      CollectionModel.getCardCount s + 1 := by
  induction s with
  | nil => simp [CollectionModel.addCard, CollectionModel.getCardCount, mkEntry]
  | cons x t ih =>
      by_cases hx : x.id = c.id
      · simp only [CollectionModel.addCard, if_pos hx,
          CollectionModel.getCardCount, List.foldl_cons]
        rw [foldl_quantity_shift t (0 + (x.quantity + 1)),
          foldl_quantity_shift t (0 + x.quantity)]
        omega
      · simp only [CollectionModel.addCard, if_neg hx,
          CollectionModel.getCardCount, List.foldl_cons]
        rw [foldl_quantity_shift _ (0 + x.quantity),
          foldl_quantity_shift t (0 + x.quantity)]
        have ht := ih
        simp only [CollectionModel.getCardCount] at ht
        omega

/-- C1: when the grading collaborator call or normalization fails for any
reason (gradeCard yields an error), recognizeCard still resolves, with the
deterministic fallback: the mock placeholder identity built from the
clock, name "Unrecognized Card", imageUrl set to the original image
reference, confidence 0.1 and a null gradingResult. -/
theorem recognizeCard_fallback_on_failure
    (imageUri : String) (net : Except String XimilarRecord) (now : Nat)
    (currentYear : Int) (e : String)
    (h : CameraService.gradeCard net = .error e) :
    CameraService.recognizeCard imageUri net now currentYear =
      { card :=
        { CardModel.createMockCard now with
            imageUrl := imageUri
          , name := "Unrecognized Card"
          , description :=
              "Card could not be identified. Please try again or add details manually." }
      , confidence := 1/10
      , gradingResult := none } := by
  simp only [CameraService.recognizeCard, h]

theorem recognizeCard_fallback_on_failure_witness :
    CameraService.recognizeCard "file://card.jpg"
        (.error "Network error. Please check your internet connection.")
        1700000000000 2024 =
      { card :=
        { CardModel.createMockCard 1700000000000 with
            imageUrl := "file://card.jpg"
          , name := "Unrecognized Card"
          , description :=
              "Card could not be identified. Please try again or add details manually." }
      , confidence := 1/10
      , gradingResult := none } :=
  recognizeCard_fallback_on_failure "file://card.jpg"
    (.error "Network error. Please check your internet connection.")
    1700000000000 2024
    "Network error. Please check your internet connection." rfl

/-- C3: normalize fails (with the no-grading-payload error) exactly when
the grades block is structurally absent; whenever a grades block is
present, even with every optional field missing, it succeeds. -/
theorem processGradingResponse_malformed_iff (record : XimilarRecord) :
    (XimilarApiService.processGradingResponse record =
        .error "No grading data found in the response" ↔ record.grades = none)
  ∧ (∀ e, XimilarApiService.processGradingResponse record = .error e →
      record.grades = none)
  ∧ (∀ grades, record.grades = some grades →
      (XimilarApiService.processGradingResponse record).isOk = true) := by
  rcases record with ⟨o, c, g, fu, eu⟩
  cases g <;>
    simp [XimilarApiService.processGradingResponse, Except.isOk, Except.toBool]

theorem processGradingResponse_malformed_iff_witness :
    XimilarApiService.processGradingResponse noGradesRecord =
        .error "No grading data found in the response"
  ∧ (XimilarApiService.processGradingResponse bareGradesRecord).isOk = true :=
  ⟨(processGradingResponse_malformed_iff noGradesRecord).1.mpr rfl,
   (processGradingResponse_malformed_iff bareGradesRecord).2.2
     { corners := none, edges := none, surface := none, centering := none,
       final := none } rfl⟩

/-- C6: loadCollection and loadSettings are total (never throw): on a
stored value they resolve to it, and on a null read, a read failure or a
parse failure they resolve to the empty list respectively the default
settings darkMode false, notifications true, offlineMode false. -/
theorem load_never_throws :
    (∀ v, StorageService.loadCollection (.parsed v) = v)
  ∧ StorageService.loadCollection .nullValue = []
  ∧ StorageService.loadCollection .getFailure = []
  ∧ StorageService.loadCollection .parseFailure = []
  ∧ (∀ v, StorageService.loadSettings (.parsed v) = v)
  ∧ StorageService.loadSettings .nullValue = StorageService.defaultSettings
  ∧ StorageService.loadSettings .getFailure = StorageService.defaultSettings
  ∧ StorageService.loadSettings .parseFailure = StorageService.defaultSettings
  ∧ StorageService.defaultSettings =
      { darkMode := false, notifications := true, offlineMode := false } :=
  ⟨fun _ => rfl, rfl, rfl, rfl, fun _ => rfl, rfl, rfl, rfl, rfl⟩

/-- C8: removeCard filters out every entry with the matching id, is a
no-op when no entry matches, and is idempotent: a second removeCard with
the same id leaves the state unchanged. -/
theorem removeCard_idempotent (s : List CollectionCard) (cardId : String) :
    CollectionModel.removeCard (CollectionModel.removeCard s cardId) cardId =
      CollectionModel.removeCard s cardId
  ∧ ((∀ e ∈ s, e.id ≠ cardId) → CollectionModel.removeCard s cardId = s)
  ∧ (∀ e ∈ CollectionModel.removeCard s cardId, e.id ≠ cardId) := by
  refine ⟨?_, ?_, ?_⟩
  · simp [CollectionModel.removeCard, List.filter_filter]
  · intro h
    exact List.filter_eq_self.mpr (fun e he => by
      simpa using h e he)
  · intro e he
    simpa using (List.mem_filter.mp he).2

theorem removeCard_idempotent_witness :
    CollectionModel.removeCard
        (CollectionModel.removeCard
          [sampleEntry "a" 1 (.num 5) "d", sampleEntry "b" 2 (.num 3) "d"] "a")
        "a" =
      CollectionModel.removeCard
        [sampleEntry "a" 1 (.num 5) "d", sampleEntry "b" 2 (.num 3) "d"] "a"
  ∧ CollectionModel.removeCard [sampleEntry "b" 2 (.num 3) "d"] "a" =
      [sampleEntry "b" 2 (.num 3) "d"] :=
  ⟨(removeCard_idempotent
      [sampleEntry "a" 1 (.num 5) "d", sampleEntry "b" 2 (.num 3) "d"] "a").1,
   (removeCard_idempotent [sampleEntry "b" 2 (.num 3) "d"] "a").2.1
     (by decide)⟩

/-- C10: the collection slice's addCard reducer increments the first
matching entry's quantity by the payload's quantity field, keeping every
other field of that entry (dateAdded included), every other entry and the
order unchanged; with no matching entry it appends the payload unmodified
at the end. -/
theorem sliceAddCard_merge (p : CollectionCard) :
    (∀ s, (∀ e ∈ s, e.id ≠ p.id) → sliceAddCard s p = s ++ [p])
  ∧ (∀ pre e post, e.id = p.id → (∀ x ∈ pre, x.id ≠ p.id) →
      sliceAddCard (pre ++ e :: post) p =
        pre ++ { e with quantity := e.quantity + p.quantity } :: post) := by
  constructor
  · intro s
    induction s with
    | nil => intro _; rfl
    | cons x t ih =>
        intro h
        have hx : x.id ≠ p.id := h x (by simp)
        simp only [sliceAddCard, if_neg hx, List.cons_append, List.cons.injEq,
          true_and]
        exact ih (fun e he => h e (by simp [he]))
  · intro pre
    induction pre with
    | nil =>
        intro e post he _
        simp only [List.nil_append, sliceAddCard, if_pos he]
    | cons x t ih =>
        intro e post he h
        have hx : x.id ≠ p.id := h x (by simp)
        simp only [List.cons_append, sliceAddCard, if_neg hx,
          List.cons.injEq, true_and]
        exact ih e post he (fun y hy => h y (by simp [hy]))

theorem sliceAddCard_merge_witness :
    sliceAddCard [sampleEntry "a" 1 (.num 5) "day1"]
        (sampleEntry "a" 4 (.num 9) "day9") =
      [{ sampleEntry "a" 1 (.num 5) "day1" with quantity := (1 : Int) + 4 }]
  ∧ sliceAddCard [sampleEntry "b" 1 (.num 5) "day1"]
        (sampleEntry "a" 4 (.num 9) "day9") =
      [sampleEntry "b" 1 (.num 5) "day1", sampleEntry "a" 4 (.num 9) "day9"] :=
  ⟨(sliceAddCard_merge (sampleEntry "a" 4 (.num 9) "day9")).2 []
      (sampleEntry "a" 1 (.num 5) "day1") [] (by decide) (by decide),
   (sliceAddCard_merge (sampleEntry "a" 4 (.num 9) "day9")).1
      [sampleEntry "b" 1 (.num 5) "day1"] (by decide)⟩

lemma jsNumOr_some_zero (v : Rat) : jsNumOr (some v) 0 = v := by
  by_cases hv : v = 0 <;> simp [jsNumOr, hv]

lemma jsNumOr_none (d : Rat) : jsNumOr none d = d := rfl

/-- C2: addCard merges by id, appending a quantity-1 entry stamped with
the current clock when the id is new, and incrementing the first matching
entry's quantity by 1 (identity and dateAdded preserved) otherwise; hence
N addCard calls with the same card add exactly N to getCardCount and,
from an empty collection, leave a single entry with quantity N whose
dateAdded is the first call's timestamp. -/
theorem addCard_merge_and_accumulate (c : Card) (nowF : Nat → String) :
    (∀ s now, (∀ e ∈ s, e.id ≠ c.id) →
      CollectionModel.addCard s c now = s ++ [mkEntry c now])
  ∧ (∀ pre e post now, e.id = c.id → (∀ x ∈ pre, x.id ≠ c.id) →
      CollectionModel.addCard (pre ++ e :: post) c now =
        pre ++ { e with quantity := e.quantity + 1 } :: post)
  ∧ (∀ s n, CollectionModel.getCardCount (CollectionModel.addCardN n s c nowF) =
      CollectionModel.getCardCount s + n)
  ∧ (∀ n, CollectionModel.addCardN (n + 1) [] c nowF =
      [{ mkEntry c (nowF 0) with quantity := (n : Int) + 1 }]) := by
  refine ⟨?_, ?_, ?_, ?_⟩
  · intro s
    induction s with
    | nil => intro _ _; rfl
    | cons x t ih =>
        intro now h
        have hx : x.id ≠ c.id := h x (by simp)
        simp only [CollectionModel.addCard, if_neg hx, List.cons_append,
          List.cons.injEq, true_and]
        exact ih now (fun e he => h e (by simp [he]))
  · intro pre
    induction pre with
    | nil =>
        intro e post now he _
        simp only [List.nil_append, CollectionModel.addCard, if_pos he]
    | cons x t ih =>
        intro e post now he h
        have hx : x.id ≠ c.id := h x (by simp)
        simp only [List.cons_append, CollectionModel.addCard, if_neg hx,
          List.cons.injEq, true_and]
        exact ih e post now he (fun y hy => h y (by simp [hy]))
  · intro s n
    induction n with
    | zero => simp [CollectionModel.addCardN]
    | succ k ih =>
        have := getCardCount_addCard
          (CollectionModel.addCardN k s c nowF) c (nowF k)
        simp only [CollectionModel.addCardN] at this ⊢
        rw [this, ih]
        push_cast
        ring
  · intro n
    induction n with
    | zero =>
        show CollectionModel.addCard [] c (nowF 0) = _
        simp [CollectionModel.addCard, mkEntry]
    | succ k ih =>
        show CollectionModel.addCard
          (CollectionModel.addCardN (k + 1) [] c nowF) c (nowF (k + 1)) = _
        rw [ih]
        simp only [CollectionModel.addCard, mkEntry, if_pos]
        constructor

theorem addCard_merge_and_accumulate_witness :
    CollectionModel.addCard [] (sampleCard "p1") "2024-01-01" =
      [] ++ [mkEntry (sampleCard "p1") "2024-01-01"]
  ∧ CollectionModel.addCardN 3 [] (sampleCard "p1") (fun _ => "2024-01-01") =
      [{ mkEntry (sampleCard "p1") "2024-01-01" with quantity := (2 : Int) + 1 }] :=
  ⟨(addCard_merge_and_accumulate (sampleCard "p1") (fun _ => "2024-01-01")).1
      [] "2024-01-01" (by decide),
   (addCard_merge_and_accumulate (sampleCard "p1") (fun _ => "2024-01-01")).2.2.2 2⟩

/-- C4: for every normalized response, isDamaged is true unless the
Damaged tag's value is the literal "OK" (so an absent Damaged tag yields
isDamaged = true), hasAutograph is true only if the Autograph tag's value
is "Yes", and isfront is true only if the Side tag's value is "Front". -/
theorem tag_derived_booleans (record : XimilarRecord)
    (res : XimilarGradingResult)
    (h : XimilarApiService.processGradingResponse record = .ok res) :
    (res.isDamaged = true ↔ ¬ damagedTagName record = some "OK")
  ∧ (damagedTagName record = none → res.isDamaged = true)
  ∧ (res.hasAutograph = true ↔ autographTagName record = some "Yes")
  ∧ (res.isfront = true ↔ sideTagName record = some "Front") := by
  rcases record with ⟨o, cb, g, fu, eu⟩
  cases g with
  | none => simp [XimilarApiService.processGradingResponse] at h
  | some grades =>
      simp only [XimilarApiService.processGradingResponse, Except.ok.injEq] at h
      subst h
      refine ⟨?_, ?_, ?_, ?_⟩
      · simp [damagedTagName, recordTags, bne_iff_ne]
      · intro h0
        simp only [damagedTagName, recordTags] at h0
        simp [h0, bne_iff_ne]
      · simp [autographTagName, recordTags, beq_iff_eq]
      · simp [sideTagName, recordTags, beq_iff_eq]

theorem tag_derived_booleans_witness :
    XimilarApiService.processGradingResponse scenarioRecord = .ok scenarioResult
  ∧ scenarioResult.finalGrade = 8.5
  ∧ scenarioResult.confidence = 0.95
  ∧ scenarioResult.isDamaged = true
  ∧ scenarioResult.hasAutograph = false
  ∧ scenarioResult.isfront = false :=
  ⟨by decide, by decide, by decide,
   (tag_derived_booleans scenarioRecord scenarioResult (by decide)).2.1
     (by decide),
   by decide, by decide⟩

/-- C5: with a grading payload present, each of the five grade fields is
the source value when present (no clamping, even far out of range) and 0
when absent, and confidence is the primary detected object's probability,
0 when no object is detected. -/
theorem grade_defaults_no_clamping (record : XimilarRecord)
    (grades : XimilarGrades) (res : XimilarGradingResult)
    (hg : record.grades = some grades)
    (h : XimilarApiService.processGradingResponse record = .ok res) :
    ((∀ v, grades.final = some v → res.finalGrade = v)
      ∧ (grades.final = none → res.finalGrade = 0))
  ∧ ((∀ v, grades.corners = some v → res.cornerGrade = v)
      ∧ (grades.corners = none → res.cornerGrade = 0))
  ∧ ((∀ v, grades.edges = some v → res.edgeGrade = v)
      ∧ (grades.edges = none → res.edgeGrade = 0))
  ∧ ((∀ v, grades.surface = some v → res.surfaceGrade = v)
      ∧ (grades.surface = none → res.surfaceGrade = 0))
  ∧ ((∀ v, grades.centering = some v → res.centeringGrade = v)
      ∧ (grades.centering = none → res.centeringGrade = 0))
  ∧ ((∀ obj, primaryObject record = some obj → res.confidence = obj.prob)
      ∧ (primaryObject record = none → res.confidence = 0)) := by
  rcases record with ⟨o, cb, g, fu, eu⟩
  cases g with
  | none => simp at hg
  | some gr =>
      have hgr : gr = grades := by simpa using hg
      subst hgr
      simp only [XimilarApiService.processGradingResponse, Except.ok.injEq] at h
      subst h
      refine ⟨⟨?_, ?_⟩, ⟨?_, ?_⟩, ⟨?_, ?_⟩, ⟨?_, ?_⟩, ⟨?_, ?_⟩, ⟨?_, ?_⟩⟩ <;>
        intros <;>
        simp_all [primaryObject, jsNumOr_some_zero, jsNumOr_none,
          -List.find?_eq_none]

theorem grade_defaults_no_clamping_witness :
    XimilarApiService.processGradingResponse outOfRangeRecord =
        .ok outOfRangeResult
  ∧ outOfRangeResult.finalGrade = 42
  ∧ outOfRangeResult.cornerGrade = 0
  ∧ outOfRangeResult.confidence = 0.95 :=
  ⟨by decide,
   (grade_defaults_no_clamping outOfRangeRecord
      { corners := none, edges := none, surface := none, centering := none,
        final := some 42 }
      outOfRangeResult rfl (by decide)).1.1 42 rfl,
   by decide, by decide⟩

lemma foldl_value_shift (s : List CollectionCard) (a : Rat) :
    s.foldl
      (fun sum card =>
        sum + CollectionViewModel.parsePriceVal card.price * (card.quantity : Rat)) a =
    a + s.foldl
      (fun sum card =>
        sum + CollectionViewModel.parsePriceVal card.price * (card.quantity : Rat)) 0 := by
  induction s generalizing a with
  | nil => simp
  | cons x t ih =>
      simp only [List.foldl_cons]
      rw [ih (a + _), ih (0 + _)]
      ring

/-- C7: getTotalValue is the sum over entries of parsed price times
quantity, where a numeric price is used as-is, a string price has its
dollar sign stripped and is parsed, an unparsable string contributes 0;
on the §8 example collection it yields 63. -/
theorem totalValue_defensive_sum (cards : List CollectionCard) :
    CollectionViewModel.getTotalValue cards =
      (cards.map (fun c =>
        CollectionViewModel.parsePriceVal c.price * (c.quantity : Rat))).sum
  ∧ (∀ q, CollectionViewModel.parsePriceVal (.num q) = q)
  ∧ (∀ s, parseFloatOpt (jsReplaceFirst s '$') = none →
      CollectionViewModel.parsePriceVal (.str s) = 0)
  ∧ CollectionViewModel.parsePriceVal (.str "$25.50") = 25.5
  ∧ CollectionViewModel.getTotalValue
      [sampleEntry "a" 2 (.str "$25.50") "d1", sampleEntry "b" 1 (.num 12) "d2"] =
      63 := by
  refine ⟨?_, fun q => rfl, ?_, by decide, by decide⟩
  · induction cards with
    | nil => rfl
    | cons x t ih =>
        simp only [CollectionViewModel.getTotalValue, List.foldl_cons,
          List.map_cons, List.sum_cons]
        rw [foldl_value_shift]
        simp only [CollectionViewModel.getTotalValue] at ih
        rw [ih]
        ring
  · intro s hs
    simp [CollectionViewModel.parsePriceVal, hs, jsNumOr]

theorem totalValue_defensive_sum_witness :
    CollectionViewModel.parsePriceVal (.str "no price here") = 0
  ∧ CollectionViewModel.getTotalValue
      [sampleEntry "a" 2 (.str "$25.50") "d1", sampleEntry "b" 1 (.num 12) "d2"] =
      63 :=
  ⟨(totalValue_defensive_sum []).2.2.1 "no price here" (by decide),
   (totalValue_defensive_sum []).2.2.2.2⟩

/-- C9: counterexample to the claim as stated. Evaluated highest-first,
the claimed table sends grade 10 to "Mint" (its first band is grade≥9),
while all three banding functions in the source send 10 to "Gem Mint";
the claimed below-2 pairing ("Damaged" on [1,2), "Authentic (Damaged)"
below 1) is reversed relative to interpretGrade and absent from the
coarse table; and at 8.5 the finer table says "Near Mint+", not the
claimed "Near Mint/Mint". -/
theorem banding_claim_counterexample :
    CameraService.mapConditionFromGrade (some 10) = "Gem Mint"
  ∧ CardModel.mapGradeToCondition (some 10) = "Gem Mint"
  ∧ XimilarApiService.interpretGrade (some 10) = "Gem Mint"
  ∧ specBandClaim 10 = "Mint"
  ∧ CameraService.mapConditionFromGrade (some 10) ≠ specBandClaim 10
  ∧ XimilarApiService.interpretGrade (some 1.5) = "Authentic (Damaged)"
  ∧ specBandClaim 1.5 = "Damaged"
  ∧ CameraService.mapConditionFromGrade (some 1.5) = "Damaged"
  ∧ XimilarApiService.interpretGrade (some 8.5) = "Near Mint+"
  ∧ specBandClaim 8.5 = "Near Mint/Mint" := by
  refine ⟨by decide, by decide, by decide, by decide, by decide, by decide,
    by decide, by decide, by decide, by decide⟩

theorem banding_tables_witness :
    CameraService.mapConditionFromGrade (some 10) = "Gem Mint"
  ∧ CameraService.mapConditionFromGrade (some 8.5) = "Near Mint/Mint"
  ∧ CameraService.mapConditionFromGrade (some 1.5) = "Damaged"
  ∧ XimilarApiService.interpretGrade (some 1.5) = "Authentic (Damaged)"
  ∧ XimilarApiService.interpretGrade (some 0.5) = "Damaged" :=
  ⟨(banding_tables 10).2.1 (by decide),
   (banding_tables 8.5).2.2.2.1 (by decide) (by decide),
   (banding_tables 1.5).2.2.2.2.2.2.2.2.2.2.1 (by decide) (by decide),
   (banding_tables 1.5).2.2.2.2.2.2.2.2.2.2.2.2.2.1 (by decide) (by decide),
   (banding_tables 0.5).2.2.2.2.2.2.2.2.2.2.2.2.2.2 (by decide) (by decide)⟩

end

end TCG
